import Mathlib

/-!
Shallow embedding of `src/main.cpp` (class `BackupSystem`) of the
AutoBackupCPP-Linux repository, together with theorems settling the claims
about its upload-routing, delivery and scheduling logic.

Modelling conventions:
* External effects (the `7z` child process, libcurl transfers, `rand()`,
  `fs::file_size`) are captured by an `Env` record holding the outcome each
  collaborator would produce during one cycle.
* Observable side effects of a cycle are recorded as a trace of `Event`s;
  each event is paired with the value the `isBackupInProgress` flag holds at
  the moment the effect is performed, so that guard claims can be stated.
* File sizes: `fs::file_size` yields a `uintmax_t` byte count (or an error
  code, modelled by `Option Nat`); `getFileSizeInMB` converts it to a C++
  `double` by `size / (1024*1024)`.  We model the value in `ℚ`.  This is
  exact for every byte count below 2^53, and for larger counts the rounding
  of the cast cannot move the value across the 23.0 MiB threshold (23 MiB is
  about 2.4e7, far below 2^53), so the `ℚ` model decides the comparison
  `fileSize >= MAX_DIRECT_UPLOAD_SIZE` exactly as the `double` code does.
* `std::string` values that the program only moves around are modelled by
  `String`; the `cooldownDuration` string, which the program inspects
  character by character, is modelled by its character list `List Char`.
-/

namespace AutoBackup

/-- Observable side effects of one backup cycle.
`archiveInvoked` is the `std::system("7z a ...")` call;
`webhookSelected` is the call to `getRandomWebhook` (the random endpoint
selection routine) together with the URL it returned;
`fileIOUpload` is the multipart POST performed by `uploadToFileIO`;
`webhookJSONPost url content` is the JSON POST of body content `content`
to `url` performed by `sendToWebhook` when `isFileIOLink` is true;
`webhookFilePost url path` is the multipart file POST of the file at
`path` to `url` performed by `sendToWebhook` when `isFileIOLink` is false. -/
inductive Event where
  | archiveInvoked : Event
  | webhookSelected (url : String) : Event
  | fileIOUpload : Event
  | webhookJSONPost (url content : String) : Event
  | webhookFilePost (url path : String) : Event
deriving DecidableEq, Repr

/-- Outcomes the external collaborators produce during one cycle.
`archiveExit` is the exit status of `std::system` on the `7z` command;
`fileBytes` is the result of `fs::file_size` on the fresh archive
(`none` models the error-code case);
`randNat` is the value `rand()` would return;
`fileioLink` is `some link` when the file.io POST succeeds at transport
level and its JSON response carries a string field `link` (any transport
error, JSON parse failure, or missing or non-string `link` field raises an
exception that `uploadToFileIO` catches, all modelled by `none`);
`webhookOk` is whether the webhook POST would complete without a curl
transport error. -/
structure Env where
  archiveExit : Int
  fileBytes : Option Nat
  randNat : Nat
  fileioLink : Option String
  webhookOk : Bool
deriving Repr

/-- The constant `MAX_DIRECT_UPLOAD_SIZE = 23.0` (MB) from `src/main.cpp`. -/
def MAX_DIRECT_UPLOAD_SIZE : ℚ := 23

/-- `getRandomWebhook` from `src/main.cpp`: empty collection yields the
empty string, otherwise the entry at `rand() % webhooks.size()`. -/
def getRandomWebhook (webhooks : List String) (randNat : Nat) : String :=
  if webhooks.isEmpty then ""
  else webhooks.getD (randNat % webhooks.length) ""

/-- `getFileSizeInMB` from `src/main.cpp`: `0.0` when `fs::file_size`
reports an error, otherwise the byte count divided by `1024*1024`. -/
def getFileSizeInMB (fileBytes : Option Nat) : ℚ :=
  match fileBytes with
  | none => 0
  | some b => (b : ℚ) / (1024 * 1024)

/-- The message string built by `sendToWebhook` when `isFileIOLink` is
true: a fixed attribution tag followed by the `filepath` argument in
parentheses.  The JSON body posted is the object with single field
`content` holding this string. -/
def webhookMessage (filepath : String) : String :=
  "autobackup by <@1025369998438453298>\n(" ++ filepath ++ ")"

/-- `sendToWebhook` from `src/main.cpp`: posts either a JSON body whose
`content` field is `webhookMessage filepath` (when `isFileIOLink`) or the
file at `filepath` as a multipart body; the result is whether the transfer
completed without a curl error.  Returns the result together with the
event performed. -/
def sendToWebhook (webhookOk : Bool) (webhookUrl filepath : String)
    (isFileIOLink : Bool) : Bool × Event :=
  if isFileIOLink then
    (webhookOk, Event.webhookJSONPost webhookUrl (webhookMessage filepath))
  else
    (webhookOk, Event.webhookFilePost webhookUrl filepath)

/-- `uploadToFileIO` from `src/main.cpp`: performs the multipart POST to
the file.io host; succeeds returning the `link` field of the JSON response
exactly when that response parses and carries the field (the
`env.fileioLink = some link` case); any failure path returns `false`.
(The degenerate `curl_easy_init` failure, where no POST happens, is
subsumed in the failure case.) -/
def uploadToFileIo (fileioLink : Option String) : Bool × Option String :=
  (fileioLink.isSome, fileioLink)

/-- The fixed archive path `backupFolder + "/" + "backup.7z"` built by
`createBackup`. -/
def backupFilePath (backupFolder : String) : String :=
  backupFolder ++ "/" ++ "backup.7z"

/-- Result of one `createBackup` call: the boolean return value, the value
of `isBackupInProgress` after the call, and the trace of performed side
effects, each paired with the value `isBackupInProgress` holds while that
effect runs. -/
structure CycleOutcome where
  result : Bool
  flagAfter : Bool
  trace : List (Event × Bool)
deriving DecidableEq, Repr

/-- `createBackup` from `src/main.cpp`, lines 115-152, as a function of the
collaborator outcomes `env`, the configuration fields `backupFolder` and
`webhooks`, and the current value of `isBackupInProgress`:

* if the flag is set, print and return `false` (no side effects);
* otherwise set the flag, run the `7z` command, then clear the flag
  (line 131, immediately after `std::system` returns);
* on non-zero exit status return `false`;
* otherwise read the file size, select a webhook, and route: size at least
  `MAX_DIRECT_UPLOAD_SIZE` goes through `uploadToFileIo` and, on success, a
  JSON webhook post of the link; failure of the file.io step returns
  `false` with no webhook post; smaller sizes post the archive file itself
  to the selected webhook. -/
def createBackup (env : Env) (backupFolder : String)
    (webhooks : List String) (isBackupInProgress : Bool) : CycleOutcome :=
  if isBackupInProgress then
    { result := false, flagAfter := isBackupInProgress, trace := [] }
  else
    let archiveEv : Event × Bool := (Event.archiveInvoked, true)
    if env.archiveExit ≠ 0 then
      { result := false, flagAfter := false, trace := [archiveEv] }
    else
      let fileSize := getFileSizeInMB env.fileBytes
      let webhookUrl := getRandomWebhook webhooks env.randNat
      let selectEv : Event × Bool := (Event.webhookSelected webhookUrl, false)
      if fileSize ≥ MAX_DIRECT_UPLOAD_SIZE then
        match uploadToFileIo env.fileioLink with
        | (true, some link) =>
          let (ok, ev) := sendToWebhook env.webhookOk webhookUrl link true
          { result := ok, flagAfter := false,
            trace := [archiveEv, selectEv, (Event.fileIOUpload, false), (ev, false)] }
        | _ =>
          { result := false, flagAfter := false,
            trace := [archiveEv, selectEv, (Event.fileIOUpload, false)] }
      else
        let (ok, ev) := sendToWebhook env.webhookOk webhookUrl
          (backupFilePath backupFolder) false
        { result := ok, flagAfter := false,
          trace := [archiveEv, selectEv, (ev, false)] }

/-- Value of a digit string, most significant digit first, as accumulated
by `std::stoi` (each character contributes `c - '0'`). -/
def digitsVal (ds : List Char) : Nat :=
  ds.foldl (fun a c => 10 * a + (c.toNat - 48)) 0

/-- The maximal digit run at the front of `xs`, as parsed by `std::stoi`
after sign handling: `none` (the `std::invalid_argument` throw) when there
is no digit. -/
def stoiDigits (xs : List Char) : Option Nat :=
  let ds := xs.takeWhile Char.isDigit
  if ds.isEmpty then none else some (digitsVal ds)

/-- `std::stoi` on the character list of a `std::string`: skip leading
whitespace, consume an optional sign, then a maximal run of decimal
digits; with no digits the call throws `std::invalid_argument`, modelled
by `none`.  (We assume the value fits in `int`; the out-of-range throw is
not modelled.) -/
def stoiChars (cs : List Char) : Option Int :=
  match cs.dropWhile Char.isWhitespace with
  | [] => none
  | c :: rest =>
    if c = '-' then (stoiDigits rest).map (fun n => -(n : Int))
    else if c = '+' then (stoiDigits rest).map (fun n => (n : Int))
    else (stoiDigits (c :: rest)).map (fun n => (n : Int))

/-- Whether a character list begins with the two characters of `*/`,
i.e. whether `cooldownStr.find("*/") == 0` holds for the corresponding
`std::string`. -/
def startsWithStarSlash : List Char → Bool
  | c :: d :: _ => c = '*' && d = '/'
  | _ => false

/-- The `cooldownDuration` handling in `loadConfig`, lines 173-178:
`cooldownMinutes` starts at the 60-minute default and is overwritten with
`std::stoi(cooldownStr.substr(2))` exactly when
`cooldownStr.find("*/") == 0`, i.e. when the string begins with the two
characters of `*/`.  A `stoi` throw escapes to `loadConfig`'s catch,
making config loading fail; that case is `none`. -/
def parseCooldownMinutes (cooldownStr : List Char) : Option Int :=
  match cooldownStr with
  | c :: d :: rest => if c = '*' && d = '/' then stoiChars rest else some 60
  | _ => some 60

/-- One iteration of the `while (true)` loop in `start`, lines 193-196:
call `createBackup` with the current flag (the boolean result is
discarded), then sleep for the interval.  The loop body contains no
`return`, `break`, `exit` or uncaught exception, so an iteration never
terminates the process: its contribution to the process exit status is
`none`. -/
def startIter (env : Env) (backupFolder : String) (webhooks : List String)
    (flag : Bool) : Bool × Option Int :=
  ((createBackup env backupFolder webhooks flag).flagAfter, none)

/-- State of the scheduler loop after `n` iterations, with the
collaborator outcomes of iteration `k` given by `envs k`: the
`isBackupInProgress` value and the process exit observed so far (`none`
while the process is still running). -/
def runScheduler (envs : Nat → Env) (backupFolder : String)
    (webhooks : List String) : Nat → Bool × Option Int
  | 0 => (false, none)
  | n + 1 =>
    match runScheduler envs backupFolder webhooks n with
    | (flag, some c) => (flag, some c)
    | (flag, none) => startIter (envs n) backupFolder webhooks flag

/-- `main`, lines 200-209: if `loadConfig` fails, print an error and
return `1`; otherwise enter `start`'s infinite loop.  The observable exit
status after the startup decision and `n` loop iterations: `some 1` on
configuration failure, otherwise whatever the loop has produced (`none`
while it keeps running). -/
def mainExitAfter (configLoadOk : Bool) (envs : Nat → Env)
    (backupFolder : String) (webhooks : List String) (n : Nat) : Option Int :=
  if configLoadOk then (runScheduler envs backupFolder webhooks n).2
  else some 1

/-- Whether `sub` occurs as a contiguous run inside `s` (character-list
view of `std::string` contents). -/
def listContains (sub : List Char) : List Char → Bool
  | [] => sub.isEmpty
  | c :: rest => sub.isPrefixOf (c :: rest) || listContains sub rest

/-- Whether the string `sub` occurs as a substring of `s`. -/
def strContainsB (s sub : String) : Bool :=
  listContains sub.data s.data

/-- Events of a trace, without the flag annotations. -/
def CycleOutcome.events (o : CycleOutcome) : List Event :=
  o.trace.map Prod.fst

/-- Recognizer for the file.io upload event. -/
def isFileIoUploadEv : Event → Bool
  | Event.fileIOUpload => true
  | _ => false

/-- Recognizer for the direct multipart file post event. -/
def isWebhookFilePostEv : Event → Bool
  | Event.webhookFilePost _ _ => true
  | _ => false

/-- Recognizer for the endpoint-selection event. -/
def isSelectEv : Event → Bool
  | Event.webhookSelected _ => true
  | _ => false

/-- Recognizer for the archive invocation event. -/
def isArchiveInvokedEv : Event → Bool
  | Event.archiveInvoked => true
  | _ => false

/-- The destination URL of a webhook post event, if the event is one. -/
def postUrl : Event → Option String
  | Event.webhookJSONPost u _ => some u
  | Event.webhookFilePost u _ => some u
  | _ => none

/-- A cycle took the relayed path iff its trace performs the file.io
upload. -/
def usedRelayedPath (o : CycleOutcome) : Bool :=
  o.events.any isFileIoUploadEv

/-- A cycle took the direct path iff its trace performs a multipart file
post to a webhook. -/
def usedDirectPath (o : CycleOutcome) : Bool :=
  o.events.any isWebhookFilePostEv

/-! ### Concrete collaborator environments used by witnesses -/

/-- A 23-MiB archive (exactly the threshold), successful file.io upload
returning a link, successful webhook post. -/
def envRelayHappy : Env where
  archiveExit := 0
  fileBytes := some 24117248
  randNat := 0
  fileioLink := some "https://file.io/abc123"
  webhookOk := true

/-- A 24-MiB archive whose file.io upload fails (transport error or
unusable `link` field). -/
def envRelayFail : Env where
  archiveExit := 0
  fileBytes := some 25165824
  randNat := 0
  fileioLink := none
  webhookOk := true

/-- A 5-MiB archive, direct-upload sized. -/
def envDirect : Env where
  archiveExit := 0
  fileBytes := some 5242880
  randNat := 0
  fileioLink := none
  webhookOk := true

/-- An archive whose size query reports an error. -/
def envSizeErr : Env where
  archiveExit := 0
  fileBytes := none
  randNat := 0
  fileioLink := none
  webhookOk := true

/-- The endpoint list used by witnesses. -/
def hookList : List String := ["https://discord.example/hook"]

/-! ### Helper lemmas -/

lemma isDigit_not_whitespace (c : Char) (h : c.isDigit = true) :
    c.isWhitespace = false := by
  by_contra hw
  simp only [Bool.not_eq_false] at hw
  simp only [Char.isWhitespace, Bool.or_eq_true, decide_eq_true_eq] at hw
  rcases hw with ((h1 | h1) | h1) | h1 <;> subst h1 <;> exact absurd h (by decide)

lemma isDigit_ne (c x : Char) (h : c.isDigit = true) (hx : x.isDigit = false) :
    ¬ (c = x) := by
  intro h1
  subst h1
  rw [h] at hx
  exact absurd hx (by decide)

lemma takeWhile_append_of_all (p : Char → Bool) (l₁ l₂ : List Char)
    (h : ∀ c ∈ l₁, p c = true) :
    (l₁ ++ l₂).takeWhile p = l₁ ++ l₂.takeWhile p := by
  induction l₁ with
  | nil => simp
  | cons c l ih =>
    simp only [List.cons_append, List.takeWhile_cons, h c (by simp)]
    simp [ih fun x hx => h x (by simp [hx])]

lemma listContains_of_parts (sub p q : List Char) :
    listContains sub (p ++ (sub ++ q)) = true := by
  induction p with
  | nil =>
    rw [List.nil_append]
    cases h : sub ++ q with
    | nil =>
      have hs : sub = [] := (List.append_eq_nil.mp h).1
      rw [hs]
      rfl
    | cons c rest =>
      show (sub.isPrefixOf (c :: rest) || listContains sub rest) = true
      rw [← h]
      have hp : sub.isPrefixOf (sub ++ q) = true := by
        rw [List.isPrefixOf_iff_prefix]
        exact List.prefix_append sub q
      rw [hp, Bool.true_or]
  | cons c p ih =>
    show (sub.isPrefixOf (c :: (p ++ (sub ++ q))) || listContains sub (p ++ (sub ++ q))) = true
    rw [ih, Bool.or_true]

lemma strContainsB_webhookMessage (l : String) :
    strContainsB (webhookMessage l) l = true := by
  show listContains l.data (("autobackup by <@1025369998438453298>\n(" ++ l ++ ")").data) = true
  rw [String.data_append, String.data_append, List.append_assoc]
  exact listContains_of_parts l.data _ _


lemma createBackup_skip (env : Env) (bf : String) (whs : List String) :
    createBackup env bf whs true =
      { result := false, flagAfter := true, trace := [] } := rfl

lemma createBackup_archiveFail (env : Env) (bf : String) (whs : List String)
    (h : env.archiveExit ≠ 0) :
    createBackup env bf whs false =
      { result := false, flagAfter := false,
        trace := [(Event.archiveInvoked, true)] } := by
  simp [createBackup, h]

lemma createBackup_relayOk (env : Env) (bf : String) (whs : List String) (link : String)
    (h0 : env.archiveExit = 0)
    (hsz : getFileSizeInMB env.fileBytes ≥ MAX_DIRECT_UPLOAD_SIZE)
    (hl : env.fileioLink = some link) :
    createBackup env bf whs false =
      { result := env.webhookOk, flagAfter := false,
        trace := [(Event.archiveInvoked, true),
                  (Event.webhookSelected (getRandomWebhook whs env.randNat), false),
                  (Event.fileIOUpload, false),
                  (Event.webhookJSONPost (getRandomWebhook whs env.randNat)
                    (webhookMessage link), false)] } := by
  simp [createBackup, h0, hsz, hl, uploadToFileIo, sendToWebhook]

lemma createBackup_relayFail (env : Env) (bf : String) (whs : List String)
    (h0 : env.archiveExit = 0)
    (hsz : getFileSizeInMB env.fileBytes ≥ MAX_DIRECT_UPLOAD_SIZE)
    (hl : env.fileioLink = none) :
    createBackup env bf whs false =
      { result := false, flagAfter := false,
        trace := [(Event.archiveInvoked, true),
                  (Event.webhookSelected (getRandomWebhook whs env.randNat), false),
                  (Event.fileIOUpload, false)] } := by
  simp [createBackup, h0, hsz, hl, uploadToFileIo, sendToWebhook]

lemma createBackup_direct (env : Env) (bf : String) (whs : List String)
    (h0 : env.archiveExit = 0)
    (hsz : ¬ getFileSizeInMB env.fileBytes ≥ MAX_DIRECT_UPLOAD_SIZE) :
    createBackup env bf whs false =
      { result := env.webhookOk, flagAfter := false,
        trace := [(Event.archiveInvoked, true),
                  (Event.webhookSelected (getRandomWebhook whs env.randNat), false),
                  (Event.webhookFilePost (getRandomWebhook whs env.randNat)
                    (backupFilePath bf), false)] } := by
  simp [createBackup, h0, hsz, sendToWebhook]


/-! ### Claim theorems -/

lemma size_envRelayHappy :
    getFileSizeInMB envRelayHappy.fileBytes ≥ MAX_DIRECT_UPLOAD_SIZE := by
  norm_num [envRelayHappy, getFileSizeInMB, MAX_DIRECT_UPLOAD_SIZE]

lemma size_envRelayFail :
    getFileSizeInMB envRelayFail.fileBytes ≥ MAX_DIRECT_UPLOAD_SIZE := by
  norm_num [envRelayFail, getFileSizeInMB, MAX_DIRECT_UPLOAD_SIZE]

lemma size_envDirect :
    ¬ getFileSizeInMB envDirect.fileBytes ≥ MAX_DIRECT_UPLOAD_SIZE := by
  norm_num [envDirect, getFileSizeInMB, MAX_DIRECT_UPLOAD_SIZE]

/-- C1: the delivery strategy is determined solely by the artifact size in
MiB against the fixed 23.0 threshold: once the archive step has succeeded,
the cycle takes the relayed path (file-host upload) iff the size is at
least 23.0 MiB, takes the direct multipart path iff the size is below
23.0 MiB, and an artifact of exactly 23.0 MiB (23*1024*1024 bytes) is
relayed. -/
theorem delivery_strategy_by_size (env : Env) (bf : String) (whs : List String)
    (h0 : env.archiveExit = 0) :
    (usedRelayedPath (createBackup env bf whs false) = true ↔
      getFileSizeInMB env.fileBytes ≥ MAX_DIRECT_UPLOAD_SIZE) ∧
    (usedDirectPath (createBackup env bf whs false) = true ↔
      getFileSizeInMB env.fileBytes < MAX_DIRECT_UPLOAD_SIZE) ∧
    (env.fileBytes = some (23 * 1024 * 1024) →
      usedRelayedPath (createBackup env bf whs false) = true) := by
  have hiff : (usedRelayedPath (createBackup env bf whs false) = true ↔
      getFileSizeInMB env.fileBytes ≥ MAX_DIRECT_UPLOAD_SIZE) ∧
      (usedDirectPath (createBackup env bf whs false) = true ↔
      getFileSizeInMB env.fileBytes < MAX_DIRECT_UPLOAD_SIZE) := by
    by_cases hsz : getFileSizeInMB env.fileBytes ≥ MAX_DIRECT_UPLOAD_SIZE
    · have hlt : ¬ getFileSizeInMB env.fileBytes < MAX_DIRECT_UPLOAD_SIZE :=
        not_lt.mpr hsz
      cases hl : env.fileioLink with
      | some link =>
        rw [createBackup_relayOk env bf whs link h0 hsz hl]
        simp [usedRelayedPath, usedDirectPath, CycleOutcome.events,
          isFileIoUploadEv, isWebhookFilePostEv, hsz, hlt]
      | none =>
        rw [createBackup_relayFail env bf whs h0 hsz hl]
        simp [usedRelayedPath, usedDirectPath, CycleOutcome.events,
          isFileIoUploadEv, isWebhookFilePostEv, hsz, hlt]
    · have hlt : getFileSizeInMB env.fileBytes < MAX_DIRECT_UPLOAD_SIZE :=
        not_le.mp hsz
      rw [createBackup_direct env bf whs h0 hsz]
      simp [usedRelayedPath, usedDirectPath, CycleOutcome.events,
        isFileIoUploadEv, isWebhookFilePostEv, hsz, hlt]
  refine ⟨hiff.1, hiff.2, fun hb => hiff.1.mpr ?_⟩
  rw [hb]
  norm_num [getFileSizeInMB, MAX_DIRECT_UPLOAD_SIZE]

/-- Witness for C1 at a concrete artifact of exactly 23.0 MiB. -/
theorem delivery_strategy_by_size_witness :
    envRelayHappy.archiveExit = 0 ∧
    ((usedRelayedPath (createBackup envRelayHappy "./backups" hookList false) = true ↔
      getFileSizeInMB envRelayHappy.fileBytes ≥ MAX_DIRECT_UPLOAD_SIZE) ∧
    (usedDirectPath (createBackup envRelayHappy "./backups" hookList false) = true ↔
      getFileSizeInMB envRelayHappy.fileBytes < MAX_DIRECT_UPLOAD_SIZE) ∧
    (envRelayHappy.fileBytes = some (23 * 1024 * 1024) →
      usedRelayedPath (createBackup envRelayHappy "./backups" hookList false) = true)) :=
  ⟨rfl, delivery_strategy_by_size envRelayHappy "./backups" hookList rfl⟩


/-- C2 counterexample: in a concrete relayed cycle the file.io upload runs
while `isBackupInProgress` is already `false` (the flag is cleared at line
131, right after the archive command returns), and a cycle started when the
flag reads `false` performs the archive invocation — so a second cycle
attempted during the upload step is not a no-op, contradicting the claim
that the flag is cleared only when the cycle fully finishes. -/
theorem guard_cleared_before_upload_counterexample :
    ((Event.fileIOUpload, false) ∈
      (createBackup envRelayHappy "./backups" hookList false).trace) ∧
    (Event.archiveInvoked, true) ∈
      (createBackup envRelayHappy "./backups" hookList false).trace := by
  rw [createBackup_relayOk envRelayHappy "./backups" hookList
    "https://file.io/abc123" rfl size_envRelayHappy rfl]
  exact ⟨by simp, by simp⟩

/-- C2 amended: the guard flag is set before the archive invocation and an
attempt to run a cycle while the flag is set is a no-op (no side effects,
flag unchanged); but the flag is cleared as soon as the archive command
returns, so the archive invocation is the only effect that runs with the
flag set — the size check, the file-host upload and the webhook post all
run with the flag already cleared and are not protected by the guard. -/
theorem guard_covers_archive_only (env : Env) (bf : String) (whs : List String) :
    createBackup env bf whs true =
      { result := false, flagAfter := true, trace := [] } ∧
    (createBackup env bf whs false).trace.head? =
      some (Event.archiveInvoked, true) ∧
    (createBackup env bf whs false).flagAfter = false ∧
    ∀ p ∈ (createBackup env bf whs false).trace,
      p.2 = isArchiveInvokedEv p.1 := by
  refine ⟨createBackup_skip env bf whs, ?_⟩
  by_cases h0 : env.archiveExit = 0
  · by_cases hsz : getFileSizeInMB env.fileBytes ≥ MAX_DIRECT_UPLOAD_SIZE
    · cases hl : env.fileioLink with
      | some link =>
        rw [createBackup_relayOk env bf whs link h0 hsz hl]
        refine ⟨rfl, rfl, ?_⟩
        rintro p hp
        simp only [List.mem_cons, List.not_mem_nil, or_false] at hp
        rcases hp with h | h | h | h <;> subst h <;> rfl
      | none =>
        rw [createBackup_relayFail env bf whs h0 hsz hl]
        refine ⟨rfl, rfl, ?_⟩
        rintro p hp
        simp only [List.mem_cons, List.not_mem_nil, or_false] at hp
        rcases hp with h | h | h <;> subst h <;> rfl
    · rw [createBackup_direct env bf whs h0 hsz]
      refine ⟨rfl, rfl, ?_⟩
      rintro p hp
      simp only [List.mem_cons, List.not_mem_nil, or_false] at hp
      rcases hp with h | h | h <;> subst h <;> rfl
  · rw [createBackup_archiveFail env bf whs h0]
    refine ⟨rfl, rfl, ?_⟩
    rintro p hp
    simp only [List.mem_cons, List.not_mem_nil, or_false] at hp
    subst hp
    rfl

/-- Witness for the amended C2 at a concrete relayed cycle. -/
theorem guard_covers_archive_only_witness :
    createBackup envRelayHappy "./backups" hookList true =
      { result := false, flagAfter := true, trace := [] } ∧
    (createBackup envRelayHappy "./backups" hookList false).trace.head? =
      some (Event.archiveInvoked, true) ∧
    (createBackup envRelayHappy "./backups" hookList false).flagAfter = false ∧
    ∀ p ∈ (createBackup envRelayHappy "./backups" hookList false).trace,
      p.2 = isArchiveInvokedEv p.1 :=
  guard_covers_archive_only envRelayHappy "./backups" hookList

/-- C3 counterexample: with an empty endpoint collection and a 5-MiB
artifact the cycle does not fail fast with a configuration error: endpoint
selection still runs (returning the empty string), the cycle attempts the
multipart post to the empty URL, and it even reports success. -/
theorem empty_endpoints_counterexample :
    (createBackup envDirect "./backups" [] false).trace =
      [(Event.archiveInvoked, true),
       (Event.webhookSelected "", false),
       (Event.webhookFilePost "" (backupFilePath "./backups"), false)] ∧
    (createBackup envDirect "./backups" [] false).result = true := by
  rw [createBackup_direct envDirect "./backups" [] rfl size_envDirect]
  exact ⟨by simp [getRandomWebhook], rfl⟩

/-- C3 amended: with an empty endpoint collection a cycle does not fail
fast: `getRandomWebhook` returns the empty string, selection still happens,
and the cycle proceeds to its delivery step against the empty URL — the
direct path posts the artifact to the empty URL and the relayed happy path
posts its JSON notification to the empty URL. -/
theorem empty_endpoints_proceeds (env : Env) (bf : String)
    (h0 : env.archiveExit = 0) :
    getRandomWebhook [] env.randNat = "" ∧
    Event.webhookSelected "" ∈ (createBackup env bf [] false).events ∧
    (¬ getFileSizeInMB env.fileBytes ≥ MAX_DIRECT_UPLOAD_SIZE →
      Event.webhookFilePost "" (backupFilePath bf) ∈
        (createBackup env bf [] false).events) ∧
    (∀ link, getFileSizeInMB env.fileBytes ≥ MAX_DIRECT_UPLOAD_SIZE →
      env.fileioLink = some link →
      Event.webhookJSONPost "" (webhookMessage link) ∈
        (createBackup env bf [] false).events) := by
  have hurl : getRandomWebhook [] env.randNat = "" := rfl
  refine ⟨hurl, ?_, ?_, ?_⟩
  · by_cases hsz : getFileSizeInMB env.fileBytes ≥ MAX_DIRECT_UPLOAD_SIZE
    · cases hl : env.fileioLink with
      | some link =>
        rw [createBackup_relayOk env bf [] link h0 hsz hl]
        simp [CycleOutcome.events, hurl]
      | none =>
        rw [createBackup_relayFail env bf [] h0 hsz hl]
        simp [CycleOutcome.events, hurl]
    · rw [createBackup_direct env bf [] h0 hsz]
      simp [CycleOutcome.events, hurl]
  · intro hsz
    rw [createBackup_direct env bf [] h0 hsz]
    simp [CycleOutcome.events, hurl]
  · intro link hsz hl
    rw [createBackup_relayOk env bf [] link h0 hsz hl]
    simp [CycleOutcome.events, hurl]

/-- Witness for the amended C3 at a concrete direct-sized cycle. -/
theorem empty_endpoints_proceeds_witness :
    envDirect.archiveExit = 0 ∧
    (getRandomWebhook [] envDirect.randNat = "" ∧
    Event.webhookSelected "" ∈ (createBackup envDirect "./backups" [] false).events ∧
    (¬ getFileSizeInMB envDirect.fileBytes ≥ MAX_DIRECT_UPLOAD_SIZE →
      Event.webhookFilePost "" (backupFilePath "./backups") ∈
        (createBackup envDirect "./backups" [] false).events) ∧
    (∀ link, getFileSizeInMB envDirect.fileBytes ≥ MAX_DIRECT_UPLOAD_SIZE →
      envDirect.fileioLink = some link →
      Event.webhookJSONPost "" (webhookMessage link) ∈
        (createBackup envDirect "./backups" [] false).events)) :=
  ⟨rfl, empty_endpoints_proceeds envDirect "./backups" rfl⟩


/-- C4: on the relayed path, a failed file-host upload — transport error or
a response whose `link` field is missing or not a string (all the
`env.fileioLink = none` cases) — fails the cycle immediately: the result is
`false`, no webhook POST of either kind is attempted, there is no fallback
to the direct multipart post, and the file-host upload is attempted exactly
once (no retry within the cycle). -/
theorem relay_failure_aborts_cycle (env : Env) (bf : String) (whs : List String)
    (h0 : env.archiveExit = 0)
    (hsz : getFileSizeInMB env.fileBytes ≥ MAX_DIRECT_UPLOAD_SIZE)
    (hl : env.fileioLink = none) :
    (createBackup env bf whs false).result = false ∧
    (∀ u c, Event.webhookJSONPost u c ∉ (createBackup env bf whs false).events) ∧
    (∀ u p, Event.webhookFilePost u p ∉ (createBackup env bf whs false).events) ∧
    ((createBackup env bf whs false).events.filter isFileIoUploadEv).length = 1 := by
  rw [createBackup_relayFail env bf whs h0 hsz hl]
  refine ⟨rfl, ?_, ?_, ?_⟩
  · intro u c
    simp [CycleOutcome.events]
  · intro u p
    simp [CycleOutcome.events]
  · simp [CycleOutcome.events, isFileIoUploadEv]

/-- Witness for C4 at a concrete 24-MiB artifact with a failing file-host
upload. -/
theorem relay_failure_aborts_cycle_witness :
    envRelayFail.archiveExit = 0 ∧
    getFileSizeInMB envRelayFail.fileBytes ≥ MAX_DIRECT_UPLOAD_SIZE ∧
    envRelayFail.fileioLink = none ∧
    ((createBackup envRelayFail "./backups" hookList false).result = false ∧
    (∀ u c, Event.webhookJSONPost u c ∉
      (createBackup envRelayFail "./backups" hookList false).events) ∧
    (∀ u p, Event.webhookFilePost u p ∉
      (createBackup envRelayFail "./backups" hookList false).events) ∧
    ((createBackup envRelayFail "./backups" hookList false).events.filter
      isFileIoUploadEv).length = 1) :=
  ⟨rfl, size_envRelayFail, rfl,
    relay_failure_aborts_cycle envRelayFail "./backups" hookList rfl
      size_envRelayFail rfl⟩

/-- C5: on the relayed happy path — file-host upload succeeded with a
string `link` field — the webhook receives a JSON body whose `content`
field contains the link as a substring. -/
theorem relay_happy_content_contains_link (env : Env) (bf : String)
    (whs : List String) (link : String) (h0 : env.archiveExit = 0)
    (hsz : getFileSizeInMB env.fileBytes ≥ MAX_DIRECT_UPLOAD_SIZE)
    (hl : env.fileioLink = some link) :
    ∃ url content,
      Event.webhookJSONPost url content ∈ (createBackup env bf whs false).events ∧
      strContainsB content link = true := by
  refine ⟨getRandomWebhook whs env.randNat, webhookMessage link, ?_,
    strContainsB_webhookMessage link⟩
  rw [createBackup_relayOk env bf whs link h0 hsz hl]
  simp [CycleOutcome.events]

/-- Witness for C5 with the spec's example link and endpoint. -/
theorem relay_happy_content_contains_link_witness :
    envRelayHappy.archiveExit = 0 ∧
    getFileSizeInMB envRelayHappy.fileBytes ≥ MAX_DIRECT_UPLOAD_SIZE ∧
    envRelayHappy.fileioLink = some "https://file.io/abc123" ∧
    ∃ url content,
      Event.webhookJSONPost url content ∈
        (createBackup envRelayHappy "./backups" hookList false).events ∧
      strContainsB content "https://file.io/abc123" = true :=
  ⟨rfl, size_envRelayHappy, rfl,
    relay_happy_content_contains_link envRelayHappy "./backups" hookList
      "https://file.io/abc123" rfl size_envRelayHappy rfl⟩

/-- C6 counterexample: in the concrete relayed happy cycle the JSON message
posted to the webhook has content `webhookMessage "https://file.io/abc123"`
— the attribution tag plus the file-host link in parentheses.  The
artifact's original path `./backups/backup.7z` does not occur in that
content, while the link does: the content embeds the link, not the
artifact's path on disk. -/
theorem relayed_content_counterexample :
    Event.webhookJSONPost "https://discord.example/hook"
        (webhookMessage "https://file.io/abc123")
      ∈ (createBackup envRelayHappy "./backups" hookList false).events ∧
    strContainsB (webhookMessage "https://file.io/abc123")
      (backupFilePath "./backups") = false ∧
    strContainsB (webhookMessage "https://file.io/abc123")
      "https://file.io/abc123" = true := by
  refine ⟨?_, by decide, by decide⟩
  rw [createBackup_relayOk envRelayHappy "./backups" hookList
    "https://file.io/abc123" rfl size_envRelayHappy rfl]
  simp [CycleOutcome.events, getRandomWebhook, hookList, envRelayHappy]

/-- C6 amended: on the relayed path the JSON webhook message's `content`
field embeds the fixed attribution tag and the file-host link — the link is
what `createBackup` passes as the `filepath` argument of `sendToWebhook` —
rather than the artifact's path on disk. -/
theorem relayed_content_embeds_link (env : Env) (bf : String)
    (whs : List String) (link : String) (h0 : env.archiveExit = 0)
    (hsz : getFileSizeInMB env.fileBytes ≥ MAX_DIRECT_UPLOAD_SIZE)
    (hl : env.fileioLink = some link) :
    Event.webhookJSONPost (getRandomWebhook whs env.randNat)
        ("autobackup by <@1025369998438453298>\n(" ++ link ++ ")")
      ∈ (createBackup env bf whs false).events := by
  rw [createBackup_relayOk env bf whs link h0 hsz hl]
  simp [CycleOutcome.events, webhookMessage]

/-- Witness for the amended C6 at the concrete relayed happy cycle. -/
theorem relayed_content_embeds_link_witness :
    envRelayHappy.archiveExit = 0 ∧
    getFileSizeInMB envRelayHappy.fileBytes ≥ MAX_DIRECT_UPLOAD_SIZE ∧
    envRelayHappy.fileioLink = some "https://file.io/abc123" ∧
    Event.webhookJSONPost (getRandomWebhook hookList envRelayHappy.randNat)
        ("autobackup by <@1025369998438453298>\n(https://file.io/abc123)")
      ∈ (createBackup envRelayHappy "./backups" hookList false).events :=
  ⟨rfl, size_envRelayHappy, rfl, by
    have h := relayed_content_embeds_link envRelayHappy "./backups" hookList
      "https://file.io/abc123" rfl size_envRelayHappy rfl
    simpa using h⟩


lemma stoiChars_digits (ds tail : List Char) (hne : ds ≠ [])
    (hdig : ∀ c ∈ ds, c.isDigit = true)
    (htail : tail.takeWhile Char.isDigit = []) :
    stoiChars (ds ++ tail) = some ((digitsVal ds : Int)) := by
  obtain ⟨a, ds', rfl⟩ := List.exists_cons_of_ne_nil hne
  have ha : a.isDigit = true := hdig a (by simp)
  have haw : a.isWhitespace = false := isDigit_not_whitespace a ha
  have hm : a ≠ '-' := isDigit_ne a '-' ha (by decide)
  have hp : a ≠ '+' := isDigit_ne a '+' ha (by decide)
  have htake : ((a :: ds') ++ tail).takeWhile Char.isDigit = a :: ds' := by
    rw [takeWhile_append_of_all Char.isDigit (a :: ds') tail hdig, htail,
      List.append_nil]
  have hdrop : ((a :: ds') ++ tail).dropWhile Char.isWhitespace =
      a :: (ds' ++ tail) := by
    rw [List.cons_append, List.dropWhile_cons, haw]
    simp
  simp only [stoiChars, hdrop]
  rw [if_neg hm, if_neg hp]
  simp only [stoiDigits, ← List.cons_append, htake]
  simp

/-- C7: a `cooldownDuration` whose characters are `*/` followed by a
nonempty digit run `ds` and the tail of the cron-like form (` * * * *`)
yields an interval of `digitsVal ds` minutes, and any string that does not
begin with the two characters of `*/` silently falls back to the 60-minute
default. -/
theorem cooldown_parsing (ds cs : List Char) (hne : ds ≠ [])
    (hdig : ∀ c ∈ ds, c.isDigit = true)
    (hns : startsWithStarSlash cs = false) :
    parseCooldownMinutes ('*' :: '/' :: (ds ++ (" * * * *").data)) =
      some ((digitsVal ds : Int)) ∧
    parseCooldownMinutes cs = some 60 := by
  constructor
  · have h := stoiChars_digits ds (" * * * *").data hne hdig (by decide)
    simpa [parseCooldownMinutes] using h
  · cases cs with
    | nil => rfl
    | cons c cs' =>
      cases cs' with
      | nil => rfl
      | cons d rest =>
        simp only [startsWithStarSlash] at hns
        simp [parseCooldownMinutes, hns]

/-- Witness for C7: `*/15 * * * *` parses to 15 minutes and `0 3 * * *`
falls back to 60 minutes. -/
theorem cooldown_parsing_witness :
    (['1', '5'] ≠ ([] : List Char)) ∧
    (∀ c ∈ ['1', '5'], c.isDigit = true) ∧
    startsWithStarSlash ("0 3 * * *").data = false ∧
    ('*' :: '/' :: (['1', '5'] ++ (" * * * *").data)) = ("*/15 * * * *").data ∧
    digitsVal ['1', '5'] = 15 ∧
    (parseCooldownMinutes ('*' :: '/' :: (['1', '5'] ++ (" * * * *").data)) =
      some ((digitsVal ['1', '5'] : Int)) ∧
    parseCooldownMinutes ("0 3 * * *").data = some 60) :=
  ⟨by decide, by decide, by decide, by decide, by decide,
    cooldown_parsing ['1', '5'] ("0 3 * * *").data (by decide) (by decide)
      (by decide)⟩

lemma runScheduler_no_exit (envs : Nat → Env) (bf : String)
    (whs : List String) : ∀ n, (runScheduler envs bf whs n).2 = none := by
  intro n
  induction n with
  | zero => rfl
  | succ n ih =>
    rcases hr : runScheduler envs bf whs n with ⟨flag, ex⟩
    rw [hr] at ih
    simp only at ih
    subst ih
    simp only [runScheduler, hr]
    rfl

/-- C8: the modelled process exit status is `1` exactly when configuration
loading fails at startup; when configuration loads, no number of scheduler
iterations produces an exit — whatever each cycle's archive, upload or
parse outcome (`envs` is arbitrary) — so the loop runs indefinitely with no
normal-exit path. -/
theorem exit_one_iff_config_failure (configLoadOk : Bool) (envs : Nat → Env)
    (bf : String) (whs : List String) (n : Nat) :
    (mainExitAfter configLoadOk envs bf whs n = some 1 ↔ configLoadOk = false) ∧
    (configLoadOk = true → mainExitAfter configLoadOk envs bf whs n = none) := by
  cases configLoadOk with
  | false => simp [mainExitAfter]
  | true => simp [mainExitAfter, runScheduler_no_exit envs bf whs n]

/-- Witness for C8 at both startup outcomes, with every cycle failing in
the loaded case. -/
theorem exit_one_iff_config_failure_witness :
    ((mainExitAfter false (fun _ => envRelayFail) "./backups" hookList 3 =
        some 1 ↔ (false : Bool) = false) ∧
      ((false : Bool) = true →
        mainExitAfter false (fun _ => envRelayFail) "./backups" hookList 3 =
          none)) ∧
    ((mainExitAfter true (fun _ => envRelayFail) "./backups" hookList 3 =
        some 1 ↔ (true : Bool) = false) ∧
      ((true : Bool) = true →
        mainExitAfter true (fun _ => envRelayFail) "./backups" hookList 3 =
          none)) :=
  ⟨exit_one_iff_config_failure false (fun _ => envRelayFail) "./backups"
      hookList 3,
    exit_one_iff_config_failure true (fun _ => envRelayFail) "./backups"
      hookList 3⟩

/-- C9: once the archive step has succeeded, endpoint selection is computed
exactly once in the cycle — the selection events of the trace are exactly
the one carrying `getRandomWebhook`'s choice — and every webhook post the
cycle performs (JSON notification or direct multipart post) goes to that
chosen endpoint. -/
theorem single_selection_per_cycle (env : Env) (bf : String)
    (whs : List String) (h0 : env.archiveExit = 0) :
    (createBackup env bf whs false).events.filter isSelectEv =
      [Event.webhookSelected (getRandomWebhook whs env.randNat)] ∧
    ∀ e ∈ (createBackup env bf whs false).events, ∀ u, postUrl e = some u →
      u = getRandomWebhook whs env.randNat := by
  by_cases hsz : getFileSizeInMB env.fileBytes ≥ MAX_DIRECT_UPLOAD_SIZE
  · cases hl : env.fileioLink with
    | some link =>
      rw [createBackup_relayOk env bf whs link h0 hsz hl]
      constructor
      · simp [CycleOutcome.events, isSelectEv]
      · rintro e he u hu
        simp only [CycleOutcome.events, List.map_cons, List.map_nil,
          List.mem_cons, List.not_mem_nil, or_false] at he
        rcases he with h | h | h | h <;> subst h <;>
          simp only [postUrl, Option.some.injEq] at hu <;>
          first
          | exact hu.symm
          | exact absurd hu (by simp)
    | none =>
      rw [createBackup_relayFail env bf whs h0 hsz hl]
      constructor
      · simp [CycleOutcome.events, isSelectEv]
      · rintro e he u hu
        simp only [CycleOutcome.events, List.map_cons, List.map_nil,
          List.mem_cons, List.not_mem_nil, or_false] at he
        rcases he with h | h | h <;> subst h <;> simp [postUrl] at hu
  · rw [createBackup_direct env bf whs h0 hsz]
    constructor
    · simp [CycleOutcome.events, isSelectEv]
    · rintro e he u hu
      simp only [CycleOutcome.events, List.map_cons, List.map_nil,
        List.mem_cons, List.not_mem_nil, or_false] at he
      rcases he with h | h | h <;> subst h <;>
        simp only [postUrl, Option.some.injEq] at hu <;>
        first
        | exact hu.symm
        | exact absurd hu (by simp)

/-- Witness for C9 at a concrete relayed cycle. -/
theorem single_selection_per_cycle_witness :
    envRelayHappy.archiveExit = 0 ∧
    ((createBackup envRelayHappy "./backups" hookList false).events.filter
        isSelectEv =
      [Event.webhookSelected (getRandomWebhook hookList envRelayHappy.randNat)] ∧
    ∀ e ∈ (createBackup envRelayHappy "./backups" hookList false).events,
      ∀ u, postUrl e = some u →
        u = getRandomWebhook hookList envRelayHappy.randNat) :=
  ⟨rfl, single_selection_per_cycle envRelayHappy "./backups" hookList rfl⟩

/-- C10: when the size query reports an error the size is reported as 0.0
MiB and the cycle does not fail on that account: 0.0 is below the 23.0
threshold, so the artifact is routed to the direct-upload path and the
cycle's result is just the webhook transfer's outcome. -/
theorem size_error_routes_direct (env : Env) (bf : String) (whs : List String)
    (h0 : env.archiveExit = 0) (hb : env.fileBytes = none) :
    getFileSizeInMB env.fileBytes = 0 ∧
    usedDirectPath (createBackup env bf whs false) = true ∧
    usedRelayedPath (createBackup env bf whs false) = false ∧
    (createBackup env bf whs false).result = env.webhookOk := by
  have hsz : ¬ getFileSizeInMB env.fileBytes ≥ MAX_DIRECT_UPLOAD_SIZE := by
    rw [hb]
    norm_num [getFileSizeInMB, MAX_DIRECT_UPLOAD_SIZE]
  rw [createBackup_direct env bf whs h0 hsz]
  refine ⟨by rw [hb]; rfl, ?_, ?_, rfl⟩
  · simp [usedDirectPath, CycleOutcome.events, isWebhookFilePostEv]
  · simp [usedRelayedPath, CycleOutcome.events, isFileIoUploadEv]

/-- Witness for C10 at a concrete cycle whose size query fails. -/
theorem size_error_routes_direct_witness :
    envSizeErr.archiveExit = 0 ∧
    envSizeErr.fileBytes = none ∧
    (getFileSizeInMB envSizeErr.fileBytes = 0 ∧
    usedDirectPath (createBackup envSizeErr "./backups" hookList false) = true ∧
    usedRelayedPath (createBackup envSizeErr "./backups" hookList false) = false ∧
    (createBackup envSizeErr "./backups" hookList false).result =
      envSizeErr.webhookOk) :=
  ⟨rfl, rfl, size_error_routes_direct envSizeErr "./backups" hookList rfl rfl⟩


end AutoBackup
